import Mathlib

/-!
Verification of the Planetarium booking backend.

The embedding covers the data model (domes, show sessions, reservations,
tickets), the reservation engine (seat validation, atomic reservation
creation, the uniqueness of a (row, seat, show_session) triple), the
availability accessor of `views.py` (the `tickets_available` annotation),
and the cache-invalidation dispatcher of `signals.py`
(`CACHE_PATTERNS` / `invalidate_cache` over glob key patterns).
-/

namespace Planetarium

/-- A planetarium dome: a fixed rows × seats_in_row seating grid
(spec section 3, PlanetariumDome). -/
structure PlanetariumDome where
  name : String
  rows : Nat
  seats_in_row : Nat
  deriving Repr, DecidableEq

/-- Modelled from the spec: models.py is not under src. Spec section 3,
PlanetariumDome: derived attribute capacity = rows * seats_in_row, confirmed
by ModelsTestCase.test_planetarium_dome_capacity (a 10 by 10 dome has
capacity 100). -/
def PlanetariumDome.capacity (d : PlanetariumDome) : Nat :=
  d.rows * d.seats_in_row

/-- A show session binds an astronomy show to a dome at a time
(spec section 3, ShowSession). References are by primary key. -/
structure ShowSession where
  astronomy_show : Nat
  planetarium_dome : Nat
  show_time : String
  deriving Repr, DecidableEq

/-- A persisted ticket row (spec section 3, Ticket): a seat claim
(row, seat) for a show session, owned by a reservation. -/
structure Ticket where
  row : Int
  seat : Int
  show_session : Nat
  reservation : Nat
  deriving Repr, DecidableEq

/-- A persisted reservation row (spec section 3, Reservation):
owned tickets are the Ticket rows whose reservation field names its id. -/
structure Reservation where
  id : Nat
  user : Nat
  deriving Repr, DecidableEq

/-- A ticket request as sent in the body of POST /reservations
(spec section 6): one (row, seat, show_session) item of the tickets list. -/
structure TicketReq where
  row : Int
  seat : Int
  show_session : Nat
  deriving Repr, DecidableEq

/-- The relational store: tables keyed by primary key for domes and
sessions, plus the reservation and ticket rows. `nextReservationId` models
the autoincrementing primary key of the reservations table. -/
structure Store where
  domes : List (Nat × PlanetariumDome)
  sessions : List (Nat × ShowSession)
  reservations : List Reservation
  tickets : List Ticket
  nextReservationId : Nat
  deriving Repr, DecidableEq

/-- The empty store: no catalogue rows, no reservations, no tickets. -/
def emptyStore : Store :=
  { domes := [], sessions := [], reservations := [], tickets := [],
    nextReservationId := 0 }

/-- Resolve a session id to the dome of that session, following the
foreign keys session → planetarium_dome. -/
def Store.sessionDome (s : Store) (sid : Nat) : Option PlanetariumDome :=
  match s.sessions.lookup sid with
  | none => none
  | some sess => s.domes.lookup sess.planetarium_dome

/-- Number of persisted tickets referencing the session: the
Count of the tickets relation in the views.py annotation. -/
def sessionTicketCount (s : Store) (sid : Nat) : Nat :=
  (s.tickets.filter (fun t => t.show_session == sid)).length

/-- The tickets_available annotation of ShowSessionViewSet.queryset in
views.py: rows * seats_in_row of the session dome minus the count of the
session tickets, recomputed from the current rows on each evaluation;
none when the session (or its dome) does not resolve. -/
def tickets_available (s : Store) (sid : Nat) : Option Int :=
  match s.sessionDome sid with
  | none => none
  | some d =>
      some ((d.rows : Int) * (d.seats_in_row : Int)
        - (sessionTicketCount s sid : Int))

/-- The error taxonomy of spec section 7. OutOfBoundsError carries the
index of the offending ticket request, the offending field and the valid
range; SeatTakenError names the conflicting seat. -/
inductive ReservationError where
  | EmptyReservationError
  | OutOfBoundsError (index : Nat) (field : String) (lo hi : Int)
  | SeatTakenError (show_session : Nat) (row seat : Int)
  | NotFoundError (show_session : Nat)
  deriving Repr, DecidableEq

/-- Modelled from the spec: models.py is not under src. Spec section 4.1,
Seat/Capacity Validator: verify 1 <= row <= dome.rows and
1 <= seat <= dome.seats_in_row, failing with the offending field and the
valid range otherwise (confirmed by ModelsTestCase.test_ticket_validation
and SerializerTests.test_ticket_serializer_validation_error). -/
def validate_ticket (d : PlanetariumDome) (row seat : Int) :
    Except (String × Int × Int) Unit :=
  if 1 ≤ row ∧ row ≤ (d.rows : Int) then
    if 1 ≤ seat ∧ seat ≤ (d.seats_in_row : Int) then
      .ok ()
    else
      .error ("seat", 1, (d.seats_in_row : Int))
  else
    .error ("row", 1, (d.rows : Int))

/-- A ticket request is valid when its session resolves to a dome and the
seat coordinates pass the Seat/Capacity Validator. -/
def validReq (s : Store) (r : TicketReq) : Bool :=
  match s.sessionDome r.show_session with
  | none => false
  | some d =>
      match validate_ticket d r.row r.seat with
      | .ok _ => true
      | .error _ => false

/-- Whether some persisted ticket already occupies (row, seat) for the
session: the uniqueness pre-check of spec section 4.2 step 3. -/
def seatOccupied (tickets : List Ticket) (sid : Nat) (row seat : Int) :
    Bool :=
  tickets.any (fun t => t.show_session == sid && t.row == row && t.seat == seat)

/-- Modelled from the spec: serializers.py is not under src. Spec section
4.2 step 2: run the Seat/Capacity Validator on each request in order,
aborting on the first failure with the index and reason, or NotFoundError
when the referenced session does not exist (spec section 7). -/
def validateAll (s : Store) (i : Nat) : List TicketReq →
    Except ReservationError Unit
  | [] => .ok ()
  | r :: rest =>
      match s.sessionDome r.show_session with
      | none => .error (.NotFoundError r.show_session)
      | some d =>
          match validate_ticket d r.row r.seat with
          | .error (f, lo, hi) => .error (.OutOfBoundsError i f lo hi)
          | .ok _ => validateAll s (i + 1) rest

/-- Modelled from the spec: serializers.py is not under src. Spec section
4.2 steps 3 and 4: inside the transaction, re-check each (session, row,
seat) triple against every ticket already inserted (pre-existing rows and
rows of this same request), aborting with SeatTakenError naming the
conflicting seat on a collision, and otherwise accumulate the new ticket
rows. Returns the full tickets table after the inserts. -/
def insertTickets (rid : Nat) (existing : List Ticket) :
    List TicketReq → Except ReservationError (List Ticket)
  | [] => .ok existing
  | r :: rest =>
      if seatOccupied existing r.show_session r.row r.seat then
        .error (.SeatTakenError r.show_session r.row r.seat)
      else
        insertTickets rid
          (existing ++ [{ row := r.row, seat := r.seat,
                          show_session := r.show_session,
                          reservation := rid }]) rest

/-- Modelled from the spec: serializers.py is not under src. Spec section
4.2, createReservation(user, ticketRequests): reject an empty request with
EmptyReservationError; validate every ticket request (aborting on the
first failure); then, atomically, re-check seat uniqueness and insert the
reservation row together with all ticket rows. An error leaves no trace:
the ok result carries the whole post-transaction store. -/
def createReservation (s : Store) (user : Nat) (reqs : List TicketReq) :
    Except ReservationError Store :=
  if reqs.isEmpty then
    .error .EmptyReservationError
  else
    match validateAll s 0 reqs with
    | .error e => .error e
    | .ok _ =>
        match insertTickets s.nextReservationId s.tickets reqs with
        | .error e => .error e
        | .ok newTickets =>
            .ok { s with
                  reservations :=
                    s.reservations ++ [{ id := s.nextReservationId,
                                         user := user }],
                  tickets := newTickets,
                  nextReservationId := s.nextReservationId + 1 }

/-- The store after a createReservation call: the transaction commits on
success and rolls back entirely on any failure (spec section 4.2 step 4). -/
def applyReservation (s : Store) (user : Nat) (reqs : List TicketReq) :
    Store :=
  match createReservation s user reqs with
  | .ok s2 => s2
  | .error _ => s

/-- The identifying key of a ticket: the (show_session, row, seat) triple
whose uniqueness is the no-double-booking invariant of spec section 3. -/
def ticketKey (t : Ticket) : Nat × Int × Int :=
  (t.show_session, t.row, t.seat)

/-- No two persisted tickets share a (show_session, row, seat) triple. -/
def uniqueTriples (tickets : List Ticket) : Prop :=
  (tickets.map ticketKey).Nodup

/-- Store states reachable by the system: from the empty store, by
catalogue writes (any write that does not touch the tickets table) and by
reservation transactions. -/
inductive Reachable : Store → Prop where
  | init : Reachable emptyStore
  | catalogueStep (s s' : Store) : Reachable s → s'.tickets = s.tickets →
      Reachable s'
  | reserveStep (s : Store) (u : Nat) (reqs : List TicketReq) :
      Reachable s → Reachable (applyReservation s u reqs)

/-- Serialized execution of a batch of createReservation calls, one per
user in order, every call carrying the same request list: the storage
layer serializes concurrent reservation transactions through its
uniqueness constraint (spec section 5), so a concurrent batch behaves as
some sequential order of the calls. Returns the final store and, per
call, none on success or the error it observed. -/
def runConcurrent (s : Store) (users : List Nat) (reqs : List TicketReq) :
    Store × List (Option ReservationError) :=
  match users with
  | [] => (s, [])
  | u :: rest =>
      match createReservation s u reqs with
      | .ok s2 =>
          let out := runConcurrent s2 rest reqs
          (out.fst, none :: out.snd)
      | .error e =>
          let out := runConcurrent s rest reqs
          (out.fst, some e :: out.snd)

/-- The model classes a post_save / post_delete signal can name as sender.
The receiver in signals.py is registered without a sender filter, so it
fires for every model, watched or not. -/
inductive Sender where
  | ShowTheme
  | PlanetariumDome
  | AstronomyShow
  | ShowSession
  | Reservation
  | Ticket
  | User
  deriving Repr, DecidableEq

/-- The CACHE_PATTERNS dict of signals.py: the five watched entity kinds
each map to one glob key pattern; every other model maps to nothing. -/
def CACHE_PATTERNS : Sender → Option String
  | .ShowTheme => some "*show_theme_view*"
  | .PlanetariumDome => some "*planetarium_dome_view*"
  | .AstronomyShow => some "*astronomy_show_view*"
  | .ShowSession => some "*show_session_view*"
  | .Reservation => some "*reservation_view*"
  | _ => none

/-- Glob matching of a redis key pattern against a key, as used by
cache.delete_pattern: a star matches any (possibly empty) run of
characters, every other character matches itself. -/
def globMatch : List Char → List Char → Bool
  | [], [] => true
  | [], _ :: _ => false
  | '*' :: ps, [] => globMatch ps []
  | '*' :: ps, c :: cs => globMatch ps (c :: cs) || globMatch ('*' :: ps) cs
  | _ :: _, [] => false
  | p :: ps, c :: cs => p == c && globMatch ps cs
termination_by p s => p.length + s.length

/-- cache.delete_pattern of the django-redis backend: evict every cached
key matching the glob pattern, keeping all others. The cache is its list
of keys. -/
def delete_pattern (cache : List String) (pattern : String) : List String :=
  cache.filter (fun k => !globMatch pattern.toList k.toList)

/-- The invalidate_cache receiver of signals.py: on a post_save or
post_delete signal, look the sender up in CACHE_PATTERNS and evict the
keys matching its pattern; a sender outside the dict leaves the cache
untouched. -/
def invalidate_cache (cache : List String) (sender : Sender) : List String :=
  match CACHE_PATTERNS sender with
  | some pattern => delete_pattern cache pattern
  | none => cache

/-- cache.delete_pattern against a possibly unavailable cache backend:
when the backend is down (ok = false) the call raises instead of
returning the evicted cache. -/
def delete_patternE (ok : Bool) (cache : List String) (pattern : String) :
    Except String (List String) :=
  if ok then .ok (delete_pattern cache pattern) else .error "ConnectionError"

/-- The invalidate_cache receiver of signals.py run against a fallible
cache backend. The receiver body wraps cache.delete_pattern in no
try/except and performs no logging, so a backend failure propagates out
of the receiver — and Django signal dispatch re-raises it into the write
(save/delete) that triggered the signal. -/
def invalidate_cacheE (ok : Bool) (cache : List String) (sender : Sender) :
    Except String (List String) :=
  match CACHE_PATTERNS sender with
  | some pattern => delete_patternE ok cache pattern
  | none => .ok cache

/-- One cached GET of a session detail through the cache_page decorator on
ShowSessionViewSet.dispatch in views.py: on a cache hit return the cached
response, otherwise compute tickets_available from the store and cache
the response. Returns the response and the updated cache. -/
def read_session (store : Store) (cache : List (Nat × Option Int))
    (sid : Nat) : Option Int × List (Nat × Option Int) :=
  match cache.lookup sid with
  | some v => (v, cache)
  | none =>
      (tickets_available store sid,
       cache ++ [(sid, tickets_available store sid)])

/-- A 10 × 10 demo dome (the example of spec section 8). -/
def demoDome : PlanetariumDome :=
  { name := "Main Dome", rows := 10, seats_in_row := 10 }

/-- A demo store with one dome and one session on it, no tickets. -/
def demoStore : Store :=
  { domes := [(1, demoDome)],
    sessions := [(1, { astronomy_show := 1, planetarium_dome := 1,
                       show_time := "2024-12-30 14:00:00" })],
    reservations := [], tickets := [], nextReservationId := 0 }

/-! ### Helper lemmas -/

theorem validate_ticket_ok_iff (d : PlanetariumDome) (row seat : Int) :
    validate_ticket d row seat = .ok () ↔
      (1 ≤ row ∧ row ≤ (d.rows : Int)) ∧
      (1 ≤ seat ∧ seat ≤ (d.seats_in_row : Int)) := by
  unfold validate_ticket
  split
  · split
    · simp_all
    · simp_all
  · simp_all

theorem validate_ticket_row_err (d : PlanetariumDome) (row seat : Int)
    (h : ¬(1 ≤ row ∧ row ≤ (d.rows : Int))) :
    validate_ticket d row seat = .error ("row", 1, (d.rows : Int)) := by
  unfold validate_ticket
  rw [if_neg h]

theorem validate_ticket_seat_err (d : PlanetariumDome) (row seat : Int)
    (h1 : 1 ≤ row ∧ row ≤ (d.rows : Int))
    (h2 : ¬(1 ≤ seat ∧ seat ≤ (d.seats_in_row : Int))) :
    validate_ticket d row seat = .error ("seat", 1, (d.seats_in_row : Int)) := by
  unfold validate_ticket
  rw [if_pos h1, if_neg h2]

theorem seatOccupied_true_iff (l : List Ticket) (sid : Nat) (row seat : Int) :
    seatOccupied l sid row seat = true ↔
      (sid, row, seat) ∈ l.map ticketKey := by
  simp only [seatOccupied, List.any_eq_true, List.mem_map, ticketKey,
    Bool.and_eq_true, beq_iff_eq, Prod.mk.injEq]
  constructor
  · rintro ⟨t, ht, ⟨h1, h2⟩, h3⟩
    exact ⟨t, ht, h1, h2, h3⟩
  · rintro ⟨t, ht, h1, h2, h3⟩
    exact ⟨t, ht, ⟨h1, h2⟩, h3⟩

theorem seatOccupied_false_iff (l : List Ticket) (sid : Nat) (row seat : Int) :
    seatOccupied l sid row seat = false ↔
      (sid, row, seat) ∉ l.map ticketKey := by
  rw [← seatOccupied_true_iff]
  cases h : seatOccupied l sid row seat <;> simp [h]

theorem seatOccupied_append (l1 l2 : List Ticket) (sid : Nat)
    (row seat : Int) :
    seatOccupied (l1 ++ l2) sid row seat =
      (seatOccupied l1 sid row seat || seatOccupied l2 sid row seat) := by
  simp [seatOccupied, List.any_append]

theorem validReq_true_iff (s : Store) (r : TicketReq) :
    validReq s r = true ↔
      ∃ d, s.sessionDome r.show_session = some d ∧
        validate_ticket d r.row r.seat = .ok () := by
  unfold validReq
  split
  · simp_all
  · next d heq =>
      split
      · next u hv => cases u; simp_all
      · simp_all

theorem validateAll_ok_of_valid (s : Store) (reqs : List TicketReq)
    (h : ∀ r ∈ reqs, validReq s r = true) (i : Nat) :
    validateAll s i reqs = .ok () := by
  induction reqs generalizing i with
  | nil => rfl
  | cons r rest ih =>
      obtain ⟨d, hd, hv⟩ :=
        (validReq_true_iff s r).mp (h r (List.mem_cons_self r rest))
      simp only [validateAll, hd, hv]
      exact ih (fun r' hr' => h r' (List.mem_cons_of_mem r hr')) (i + 1)

theorem validateAll_err_of_invalid (s : Store) (reqs : List TicketReq)
    (r : TicketReq) (hr : r ∈ reqs) (hinv : validReq s r = false) (i : Nat) :
    ∃ e, validateAll s i reqs = .error e := by
  induction reqs generalizing i with
  | nil => cases hr
  | cons r' rest ih =>
      cases hd : s.sessionDome r'.show_session with
      | none =>
          exact ⟨.NotFoundError r'.show_session,
            by simp only [validateAll, hd]⟩
      | some d =>
          cases hv : validate_ticket d r'.row r'.seat with
          | error e =>
              obtain ⟨f, lo, hi⟩ := e
              exact ⟨.OutOfBoundsError i f lo hi,
                by simp only [validateAll, hd, hv]⟩
          | ok u =>
              cases u
              rcases List.mem_cons.mp hr with heq | hmem
              · subst heq
                simp [validReq, hd, hv] at hinv
              · obtain ⟨e, he⟩ := ih hmem (i + 1)
                exact ⟨e, by simp only [validateAll, hd, hv]; exact he⟩

theorem insertTickets_err_of_occupied (rid : Nat) (reqs : List TicketReq)
    (r : TicketReq) (hr : r ∈ reqs) (existing : List Ticket)
    (hocc : seatOccupied existing r.show_session r.row r.seat = true) :
    ∃ a b c, insertTickets rid existing reqs =
      .error (.SeatTakenError a b c) := by
  induction reqs generalizing existing with
  | nil => cases hr
  | cons r' rest ih =>
      cases h : seatOccupied existing r'.show_session r'.row r'.seat with
      | true =>
          exact ⟨r'.show_session, r'.row, r'.seat,
            by simp only [insertTickets, h, if_true]⟩
      | false =>
          rcases List.mem_cons.mp hr with heq | hmem
          · subst heq
            rw [hocc] at h
            cases h
          · obtain ⟨a, b, c, hres⟩ := ih hmem
              (existing ++ [{ row := r'.row, seat := r'.seat,
                              show_session := r'.show_session,
                              reservation := rid }])
              (by rw [seatOccupied_append, hocc]; rfl)
            refine ⟨a, b, c, ?_⟩
            simp only [insertTickets, h]
            simpa using hres

theorem insertTickets_nodup (rid : Nat) (reqs : List TicketReq)
    (existing : List Ticket) (hnd : uniqueTriples existing)
    (out : List Ticket) (hok : insertTickets rid existing reqs = .ok out) :
    uniqueTriples out := by
  induction reqs generalizing existing with
  | nil =>
      unfold insertTickets at hok
      cases hok
      exact hnd
  | cons r rest ih =>
      cases h : seatOccupied existing r.show_session r.row r.seat with
      | true => simp [insertTickets, h] at hok
      | false =>
          simp only [insertTickets, h] at hok
          rw [if_neg (by simp)] at hok
          refine ih _ ?_ hok
          unfold uniqueTriples at hnd ⊢
          rw [List.map_append, List.nodup_append]
          refine ⟨hnd, List.nodup_singleton _, ?_⟩
          intro x hx hx'
          simp only [List.map_cons, List.map_nil, List.mem_singleton] at hx'
          subst hx'
          exact (seatOccupied_false_iff _ _ _ _).mp h hx

theorem applyReservation_of_error (s : Store) (u : Nat)
    (reqs : List TicketReq) (e : ReservationError)
    (h : createReservation s u reqs = .error e) :
    applyReservation s u reqs = s := by
  unfold applyReservation
  rw [h]

theorem createReservation_ok_tickets (s : Store) (u : Nat)
    (reqs : List TicketReq) (s2 : Store)
    (h : createReservation s u reqs = .ok s2) :
    insertTickets s.nextReservationId s.tickets reqs = .ok s2.tickets := by
  unfold createReservation at h
  split at h
  · cases h
  · split at h
    · cases h
    · split at h
      · cases h
      · cases h
        assumption

theorem createReservation_single_ok (s : Store) (u : Nat) (sid : Nat)
    (row seat : Int) (d : PlanetariumDome)
    (hd : s.sessionDome sid = some d)
    (hv : validate_ticket d row seat = .ok ())
    (hfree : seatOccupied s.tickets sid row seat = false) :
    createReservation s u [{ row := row, seat := seat, show_session := sid }] =
      .ok { s with
            reservations :=
              s.reservations ++ [{ id := s.nextReservationId, user := u }],
            tickets :=
              s.tickets ++ [{ row := row, seat := seat, show_session := sid,
                              reservation := s.nextReservationId }],
            nextReservationId := s.nextReservationId + 1 } := by
  have hva : validateAll s 0
      [{ row := row, seat := seat, show_session := sid }] = .ok () := by
    simp only [validateAll, hd, hv]
  have hins : insertTickets s.nextReservationId s.tickets
      [{ row := row, seat := seat, show_session := sid }] =
        .ok (s.tickets ++ [{ row := row, seat := seat, show_session := sid,
                             reservation := s.nextReservationId }]) := by
    simp only [insertTickets, hfree]
    simp
  simp only [createReservation, List.isEmpty_cons, Bool.false_eq_true,
    if_false, hva, hins]

theorem createReservation_single_taken (s : Store) (u : Nat) (sid : Nat)
    (row seat : Int) (d : PlanetariumDome)
    (hd : s.sessionDome sid = some d)
    (hv : validate_ticket d row seat = .ok ())
    (hocc : seatOccupied s.tickets sid row seat = true) :
    createReservation s u [{ row := row, seat := seat, show_session := sid }] =
      .error (.SeatTakenError sid row seat) := by
  have hva : validateAll s 0
      [{ row := row, seat := seat, show_session := sid }] = .ok () := by
    simp only [validateAll, hd, hv]
  have hins : insertTickets s.nextReservationId s.tickets
      [{ row := row, seat := seat, show_session := sid }] =
        .error (.SeatTakenError sid row seat) := by
    simp only [insertTickets, hocc, if_true]
  simp only [createReservation, List.isEmpty_cons, Bool.false_eq_true,
    if_false, hva, hins]

theorem runConcurrent_taken (s : Store) (sid : Nat) (row seat : Int)
    (d : PlanetariumDome) (hd : s.sessionDome sid = some d)
    (hv : validate_ticket d row seat = .ok ())
    (hocc : seatOccupied s.tickets sid row seat = true) (users : List Nat) :
    runConcurrent s users [{ row := row, seat := seat, show_session := sid }] =
      (s, users.map
        (fun _ => some (ReservationError.SeatTakenError sid row seat))) := by
  induction users with
  | nil => rfl
  | cons u rest ih =>
      have hc := createReservation_single_taken s u sid row seat d hd hv hocc
      simp only [runConcurrent, hc, ih, List.map_cons]

theorem lookup_append_single_none {β : Type} (l : List (Nat × β)) (k : Nat)
    (v : β) (h : l.lookup k = none) : (l ++ [(k, v)]).lookup k = some v := by
  induction l with
  | nil => simp [List.lookup]
  | cons p rest ih =>
      obtain ⟨a, b⟩ := p
      rw [List.lookup_cons] at h
      rw [List.cons_append, List.lookup_cons]
      by_cases hk : k = a
      · have hk' : (k == a) = true := by simp [hk]
        rw [hk'] at h
        exact Option.noConfusion (show some b = none from h)
      · have hk' : (k == a) = false := by simp [hk]
        rw [hk'] at h
        rw [hk']
        exact ih (show List.lookup k rest = none from h)

theorem filter_eq_nil_of_not_occupied (l : List Ticket) (sid : Nat)
    (row seat : Int) (h : seatOccupied l sid row seat = false) :
    l.filter
      (fun t => t.show_session == sid && t.row == row && t.seat == seat) =
      [] := by
  rw [List.filter_eq_nil_iff]
  intro t ht
  simp only [seatOccupied, List.any_eq_false] at h
  exact h t ht

/-! ### Claim theorems -/

/-- C4: validation of a candidate ticket (row, seat, session) succeeds iff
1 <= row <= session.dome.rows and 1 <= seat <= session.dome.seats_in_row;
a ticket with row or seat outside these ranges is always rejected, with an
out-of-bounds error naming the offending field and the valid range. -/
theorem ticket_validation_bounds (d : PlanetariumDome) (row seat : Int) :
    (validate_ticket d row seat = .ok () ↔
      (1 ≤ row ∧ row ≤ (d.rows : Int)) ∧
      (1 ≤ seat ∧ seat ≤ (d.seats_in_row : Int))) ∧
    (¬(1 ≤ row ∧ row ≤ (d.rows : Int)) →
      validate_ticket d row seat = .error ("row", 1, (d.rows : Int))) ∧
    ((1 ≤ row ∧ row ≤ (d.rows : Int)) ∧
        ¬(1 ≤ seat ∧ seat ≤ (d.seats_in_row : Int)) →
      validate_ticket d row seat =
        .error ("seat", 1, (d.seats_in_row : Int))) :=
  ⟨validate_ticket_ok_iff d row seat,
   fun h => validate_ticket_row_err d row seat h,
   fun h => validate_ticket_seat_err d row seat h.1 h.2⟩

/-- C4 witness: on the 10 × 10 demo dome, (5, 5) validates and (15, 5) is
rejected with the row range. -/
theorem ticket_validation_bounds_witness :
    validate_ticket demoDome 5 5 = .ok () ∧
    validate_ticket demoDome 15 5 =
      .error ("row", 1, (demoDome.rows : Int)) :=
  ⟨(ticket_validation_bounds demoDome 5 5).1.mpr (by decide),
   (ticket_validation_bounds demoDome 15 5).2.1 (by decide)⟩

/-- C5: for every session that resolves to a dome, the derived
tickets_available equals dome.capacity minus the count of tickets
referencing that session, with capacity = rows * seats_in_row; the value
is a function of the current ticket set of the store, not of any stored
counter. -/
theorem tickets_available_eq_capacity_sub_count (s : Store) (sid : Nat)
    (d : PlanetariumDome) (hd : s.sessionDome sid = some d) :
    tickets_available s sid =
      some ((d.capacity : Int) - (sessionTicketCount s sid : Int)) := by
  simp only [tickets_available, hd, PlanetariumDome.capacity, Nat.cast_mul]

/-- C5 witness: the demo session reads 100 - 0 available seats. -/
theorem tickets_available_capacity_witness :
    tickets_available demoStore 1 =
      some ((demoDome.capacity : Int) - (sessionTicketCount demoStore 1 : Int)) :=
  tickets_available_eq_capacity_sub_count demoStore 1 demoDome rfl

/-- C6: for every watched entity kind, invalidate_cache evicts exactly the
cached keys matching that kind's single pattern: a key survives the
eviction iff it was in the cache and does not match the pattern. -/
theorem invalidate_cache_exact (sender : Sender) (p : String)
    (hp : CACHE_PATTERNS sender = some p) (cache : List String)
    (k : String) :
    k ∈ invalidate_cache cache sender ↔
      k ∈ cache ∧ globMatch p.toList k.toList = false := by
  simp only [invalidate_cache, hp, delete_pattern, List.mem_filter,
    Bool.not_eq_true']

/-- C6 witness: a ShowSession write leaves an astronomy_show_view key in
place, as the key does not match the show_session_view pattern. -/
theorem invalidate_cache_exact_witness :
    (":1:astronomy_show_view.list" ∈
      invalidate_cache
        [":1:show_session_view.list", ":1:astronomy_show_view.list"]
        Sender.ShowSession) ↔
      (":1:astronomy_show_view.list" ∈
        [":1:show_session_view.list", ":1:astronomy_show_view.list"] ∧
       globMatch "*show_session_view*".toList
         ":1:astronomy_show_view.list".toList = false) :=
  invalidate_cache_exact Sender.ShowSession "*show_session_view*" rfl
    [":1:show_session_view.list", ":1:astronomy_show_view.list"]
    ":1:astronomy_show_view.list"

/-- C7 counterexample: a cache-layer failure during the eviction step is
not swallowed by invalidate_cache — the receiver has no try/except and no
logging, so the failure propagates out (here: the Reservation post-save
eviction fails instead of returning an ok cache state). -/
theorem cache_failure_never_propagated_cex :
    invalidate_cacheE false [":1:reservation_view_1"] Sender.Reservation =
      .error "ConnectionError" := rfl

/-- C7 amended: invalidate_cache performs cache.delete_pattern with no
exception handling and no logging, so for any watched kind the eviction
succeeds exactly when the cache layer is up, and a cache-layer failure
propagates to the caller of the write instead of being logged. -/
theorem cache_failure_propagates (ok : Bool) (cache : List String)
    (sender : Sender) (p : String) (hp : CACHE_PATTERNS sender = some p) :
    invalidate_cacheE ok cache sender =
      if ok then .ok (delete_pattern cache p)
      else .error "ConnectionError" := by
  simp only [invalidate_cacheE, hp, delete_patternE]

/-- C7 witness: with the cache layer down, a ShowTheme write's eviction
step errors. -/
theorem cache_failure_propagates_witness :
    invalidate_cacheE false [] Sender.ShowTheme =
      if false then .ok (delete_pattern [] "*show_theme_view*")
      else .error "ConnectionError" :=
  cache_failure_propagates false [] Sender.ShowTheme "*show_theme_view*" rfl

/-- C8: a createReservation call with an empty ticket-request list is
rejected with EmptyReservationError, and the store is unchanged: no
reservation row and no ticket is persisted. -/
theorem empty_reservation_rejected (s : Store) (u : Nat) :
    createReservation s u [] = .error .EmptyReservationError ∧
    applyReservation s u [] = s :=
  ⟨rfl, rfl⟩

/-- C9: two repeated cached reads of a session's availability with no
intervening write return the same value: the second read through the
cache_page layer returns exactly what the first returned. -/
theorem repeated_read_same (store : Store)
    (cache : List (Nat × Option Int)) (sid : Nat) :
    (read_session store (read_session store cache sid).snd sid).fst =
      (read_session store cache sid).fst := by
  cases h : cache.lookup sid with
  | some v => simp only [read_session, h]
  | none =>
      have h2 := lookup_append_single_none cache sid
        (tickets_available store sid) h
      simp only [read_session, h, h2]

/-- C10: a post_save or post_delete whose sender is Ticket evicts no cache
entries at all — Ticket is not a key of CACHE_PATTERNS — so in particular
persisting a reservation's tickets leaves every show_session_view cache
entry in place. -/
theorem ticket_write_evicts_nothing (cache : List String) :
    invalidate_cache cache Sender.Ticket = cache := rfl

/-- C2: a reservation request containing a ticket whose row or seat falls
outside the session's dome grid fails, and the stored state is unchanged:
zero tickets and zero reservation rows are persisted, even if other
tickets of the same request are valid. -/
theorem out_of_bounds_request_atomic (s : Store) (u : Nat)
    (reqs : List TicketReq) (r : TicketReq) (hr : r ∈ reqs)
    (d : PlanetariumDome) (hd : s.sessionDome r.show_session = some d)
    (hinv : validate_ticket d r.row r.seat ≠ .ok ()) :
    (∃ e, createReservation s u reqs = .error e) ∧
    applyReservation s u reqs = s := by
  have hvr : validReq s r = false := by
    cases hval : validReq s r
    · rfl
    · obtain ⟨d', hd', hv'⟩ := (validReq_true_iff s r).mp hval
      rw [hd] at hd'
      injection hd' with hdd
      subst hdd
      exact absurd hv' hinv
  obtain ⟨e, he⟩ := validateAll_err_of_invalid s reqs r hr hvr 0
  have hcr : createReservation s u reqs = .error e := by
    obtain ⟨q, qs, rfl⟩ : ∃ q qs, reqs = q :: qs := by
      cases reqs with
      | nil => cases hr
      | cons q qs => exact ⟨q, qs, rfl⟩
    simp only [createReservation, List.isEmpty_cons, Bool.false_eq_true,
      if_false, he]
  exact ⟨⟨e, hcr⟩, applyReservation_of_error s u reqs e hcr⟩

/-- C2 witness: a request with one valid ticket (5, 5) and one
out-of-bounds ticket (15, 5) on the demo session fails and leaves the
demo store untouched. -/
theorem out_of_bounds_request_atomic_witness :
    (∃ e, createReservation demoStore 7
        [{ row := 5, seat := 5, show_session := 1 },
         { row := 15, seat := 5, show_session := 1 }] = .error e) ∧
    applyReservation demoStore 7
        [{ row := 5, seat := 5, show_session := 1 },
         { row := 15, seat := 5, show_session := 1 }] = demoStore :=
  out_of_bounds_request_atomic demoStore 7
    [{ row := 5, seat := 5, show_session := 1 },
     { row := 15, seat := 5, show_session := 1 }]
    { row := 15, seat := 5, show_session := 1 } (by decide)
    demoDome rfl
    (fun hcon =>
      absurd ((validate_ticket_ok_iff demoDome 15 5).mp hcon) (by decide))

/-- The ticket-triple uniqueness invariant holds in every reachable store
state. -/
theorem reachable_uniqueTriples (s : Store) (h : Reachable s) :
    uniqueTriples s.tickets := by
  induction h with
  | init => exact List.nodup_nil
  | catalogueStep t t' ht heq ih =>
      unfold uniqueTriples
      rw [heq]
      exact ih
  | reserveStep t u reqs ht ih =>
      unfold applyReservation
      cases hcr : createReservation t u reqs with
      | error e => exact ih
      | ok s2 =>
          exact insertTickets_nodup t.nextReservationId reqs t.tickets ih
            s2.tickets (createReservation_ok_tickets t u reqs s2 hcr)

/-- C3: in every reachable store state the (row, seat, show_session)
triple is unique across persisted tickets, and a createReservation call
whose tickets all pass grid validation but which requests an already
occupied triple is rejected with SeatTakenError, persisting no ticket of
that request. -/
theorem unique_triples_and_seat_taken (s : Store) (hreach : Reachable s)
    (u : Nat) (reqs : List TicketReq)
    (hall : ∀ r' ∈ reqs, validReq s r' = true)
    (r : TicketReq) (hr : r ∈ reqs)
    (hocc : seatOccupied s.tickets r.show_session r.row r.seat = true) :
    uniqueTriples s.tickets ∧
    (∃ a b c, createReservation s u reqs =
      .error (.SeatTakenError a b c)) ∧
    applyReservation s u reqs = s := by
  have hva := validateAll_ok_of_valid s reqs hall 0
  obtain ⟨a, b, c, hins⟩ := insertTickets_err_of_occupied
    s.nextReservationId reqs r hr s.tickets hocc
  have hcr : createReservation s u reqs =
      .error (.SeatTakenError a b c) := by
    obtain ⟨q, qs, rfl⟩ : ∃ q qs, reqs = q :: qs := by
      cases reqs with
      | nil => cases hr
      | cons q qs => exact ⟨q, qs, rfl⟩
    simp only [createReservation, List.isEmpty_cons, Bool.false_eq_true,
      if_false, hva, hins]
  exact ⟨reachable_uniqueTriples s hreach, ⟨a, b, c, hcr⟩,
    applyReservation_of_error s u reqs _ hcr⟩

/-- C3 witness: after booking (5, 5) on the demo session (a reachable
state), the triples are unique and booking (5, 5) again is rejected with
SeatTakenError, leaving the store unchanged. -/
theorem unique_triples_and_seat_taken_witness :
    uniqueTriples (applyReservation demoStore 7
        [{ row := 5, seat := 5, show_session := 1 }]).tickets ∧
    (∃ a b c, createReservation
        (applyReservation demoStore 7
          [{ row := 5, seat := 5, show_session := 1 }]) 8
        [{ row := 5, seat := 5, show_session := 1 }] =
      .error (.SeatTakenError a b c)) ∧
    applyReservation
        (applyReservation demoStore 7
          [{ row := 5, seat := 5, show_session := 1 }]) 8
        [{ row := 5, seat := 5, show_session := 1 }] =
      applyReservation demoStore 7
        [{ row := 5, seat := 5, show_session := 1 }] :=
  unique_triples_and_seat_taken
    (applyReservation demoStore 7
      [{ row := 5, seat := 5, show_session := 1 }])
    (Reachable.reserveStep demoStore 7
      [{ row := 5, seat := 5, show_session := 1 }]
      (Reachable.catalogueStep emptyStore demoStore Reachable.init rfl))
    8 [{ row := 5, seat := 5, show_session := 1 }] (by decide)
    { row := 5, seat := 5, show_session := 1 } (by decide) (by decide)

theorem countP_isNone_map_some {α : Type} (l : List α)
    (e : ReservationError) :
    (l.map (fun _ => some e)).countP (fun o => o.isNone) = 0 := by
  induction l with
  | nil => rfl
  | cons a rest ih => simp [List.countP_cons, ih]

/-- C1: from a store where the requested (session, row, seat) lies inside
the dome grid and is free, a batch of N >= 1 concurrent createReservation
calls for that identical seat — serialized in an arbitrary order by the
storage-layer uniqueness constraint — has exactly one success: the other
N - 1 calls observe SeatTakenError, and exactly one ticket for that seat
is persisted. -/
theorem concurrent_one_success (s : Store) (sid : Nat) (row seat : Int)
    (d : PlanetariumDome) (hd : s.sessionDome sid = some d)
    (hrow : 1 ≤ row ∧ row ≤ (d.rows : Int))
    (hseat : 1 ≤ seat ∧ seat ≤ (d.seats_in_row : Int))
    (hfree : seatOccupied s.tickets sid row seat = false)
    (u : Nat) (us : List Nat) :
    (runConcurrent s (u :: us)
        [{ row := row, seat := seat, show_session := sid }]).snd =
      none :: us.map
        (fun _ => some (ReservationError.SeatTakenError sid row seat)) ∧
    ((runConcurrent s (u :: us)
        [{ row := row, seat := seat, show_session := sid }]).snd.countP
      (fun o => o.isNone)) = 1 ∧
    ((runConcurrent s (u :: us)
        [{ row := row, seat := seat, show_session := sid }]).fst.tickets.filter
      (fun t => t.show_session == sid && t.row == row && t.seat == seat)).length
      = 1 := by
  have hv : validate_ticket d row seat = .ok () :=
    (validate_ticket_ok_iff d row seat).mpr ⟨hrow, hseat⟩
  have hok := createReservation_single_ok s u sid row seat d hd hv hfree
  have hd2 :
      Store.sessionDome
        { s with
          reservations :=
            s.reservations ++ [{ id := s.nextReservationId, user := u }],
          tickets :=
            s.tickets ++ [{ row := row, seat := seat, show_session := sid,
                            reservation := s.nextReservationId }],
          nextReservationId := s.nextReservationId + 1 } sid = some d := hd
  have hocc2 :
      seatOccupied
        (s.tickets ++ [{ row := row, seat := seat, show_session := sid,
                         reservation := s.nextReservationId }])
        sid row seat = true := by
    rw [seatOccupied_append, hfree]
    simp [seatOccupied]
  have hrest := runConcurrent_taken
    { s with
      reservations :=
        s.reservations ++ [{ id := s.nextReservationId, user := u }],
      tickets :=
        s.tickets ++ [{ row := row, seat := seat, show_session := sid,
                        reservation := s.nextReservationId }],
      nextReservationId := s.nextReservationId + 1 }
    sid row seat d hd2 hv hocc2 us
  have hrun : runConcurrent s (u :: us)
      [{ row := row, seat := seat, show_session := sid }] =
      ({ s with
         reservations :=
           s.reservations ++ [{ id := s.nextReservationId, user := u }],
         tickets :=
           s.tickets ++ [{ row := row, seat := seat, show_session := sid,
                           reservation := s.nextReservationId }],
         nextReservationId := s.nextReservationId + 1 },
       none :: us.map
         (fun _ => some (ReservationError.SeatTakenError sid row seat))) := by
    simp only [runConcurrent, hok, hrest]
  rw [hrun]
  refine ⟨rfl, ?_, ?_⟩
  · simp [List.countP_cons, countP_isNone_map_some]
  · rw [List.filter_append,
      filter_eq_nil_of_not_occupied s.tickets sid row seat hfree]
    simp

/-- C1 witness: three callers race for seat (5, 5) of the demo session;
the first succeeds, the other two observe SeatTakenError, and one ticket
for the seat is persisted. -/
theorem concurrent_one_success_witness :
    (runConcurrent demoStore [21, 22, 23]
        [{ row := 5, seat := 5, show_session := 1 }]).snd =
      none :: [22, 23].map
        (fun _ => some (ReservationError.SeatTakenError 1 5 5)) ∧
    ((runConcurrent demoStore [21, 22, 23]
        [{ row := 5, seat := 5, show_session := 1 }]).snd.countP
      (fun o => o.isNone)) = 1 ∧
    ((runConcurrent demoStore [21, 22, 23]
        [{ row := 5, seat := 5, show_session := 1 }]).fst.tickets.filter
      (fun t => t.show_session == 1 && t.row == 5 && t.seat == 5)).length
      = 1 :=
  concurrent_one_success demoStore 1 5 5 demoDome rfl (by decide)
    (by decide) (by decide) 21 [22, 23]

end Planetarium
